import Mathlib

/-!
Verification of the analytics backend (event ingestion, aggregation,
credential lifecycle, short links) against its natural-language
specification.  Each handler of the source is shallowly embedded as a
pure Lean function over explicit store / cache / clock inputs, and the
spec claims are settled as theorems about those embeddings.
-/

namespace Analytics

/-! ## Generic list lemmas used by the aggregation proofs -/

theorem sum_map_add {K : Type} (m : List K) (f g : K → Nat) :
    (m.map (fun k => f k + g k)).sum = (m.map f).sum + (m.map g).sum := by
  induction m with
  | nil => rfl
  | cons a t ih => simp only [List.map_cons, List.sum_cons, ih]; omega

theorem sum_indicator_not_mem {K : Type} [DecidableEq K] (a : K) (m : List K)
    (hm : a ∉ m) :
    (m.map (fun k => if a = k then 1 else 0)).sum = 0 := by
  induction m with
  | nil => rfl
  | cons b t ih =>
    simp only [List.mem_cons, not_or] at hm
    simp only [List.map_cons, List.sum_cons, if_neg hm.1, ih hm.2]

theorem sum_indicator_nodup {K : Type} [DecidableEq K] (a : K) (m : List K)
    (hnd : m.Nodup) (hm : a ∈ m) :
    (m.map (fun k => if a = k then 1 else 0)).sum = 1 := by
  induction m with
  | nil => cases hm
  | cons b t ih =>
    rcases List.mem_cons.mp hm with h | h
    · subst h
      have ha : a ∉ t := (List.nodup_cons.mp hnd).1
      simp [sum_indicator_not_mem a t ha]
    · have hab : a ≠ b := by
        rintro rfl
        exact (List.nodup_cons.mp hnd).1 h
      simp only [List.map_cons, List.sum_cons, if_neg hab,
        ih (List.nodup_cons.mp hnd).2 h]

theorem map_congr_on {α β : Type} {l : List α} {f g : α → β}
    (h : ∀ a ∈ l, f a = g a) : l.map f = l.map g := by
  induction l with
  | nil => rfl
  | cons a t ih =>
    simp only [List.map_cons]
    rw [h a (List.mem_cons_self a t), ih (fun x hx => h x (List.mem_cons_of_mem a hx))]

/-- Splitting a list into its groups under a key function and summing the
group sizes recovers the length of the list. -/
theorem sum_group_sizes {α K : Type} [DecidableEq K] (key : α → K) :
    ∀ l : List α,
      (((l.map key).dedup).map
          (fun k => (l.filter (fun e => decide (key e = k))).length)).sum = l.length
  | [] => rfl
  | a :: t => by
    have ih := sum_group_sizes key t
    by_cases h : key a ∈ t.map key
    · rw [List.map_cons, List.dedup_cons_of_mem h]
      have hstep : (fun k => ((a :: t).filter (fun e => decide (key e = k))).length)
          = fun k => (t.filter (fun e => decide (key e = k))).length
              + (if key a = k then 1 else 0) := by
        funext k
        by_cases hk : key a = k
        · simp [List.filter_cons, hk]
        · simp [List.filter_cons, hk]
      rw [hstep, sum_map_add _ _ _, ih,
        sum_indicator_nodup (key a) ((t.map key).dedup) (List.nodup_dedup _)
          (List.mem_dedup.mpr h)]
      simp
    · rw [List.map_cons, List.dedup_cons_of_not_mem h, List.map_cons, List.sum_cons]
      have h2 : t.filter (fun e => decide (key e = key a)) = [] := by
        rw [List.filter_eq_nil_iff]
        intro e he
        simp only [decide_eq_true_eq]
        intro heq
        exact h (List.mem_map.mpr ⟨e, he, heq⟩)
      have h1 : ((a :: t).filter (fun e => decide (key e = key a))).length = 1 := by
        simp [List.filter_cons, h2]
      have hrest : ((t.map key).dedup).map
            (fun k => ((a :: t).filter (fun e => decide (key e = k))).length)
          = ((t.map key).dedup).map
            (fun k => (t.filter (fun e => decide (key e = k))).length) := by
        apply map_congr_on
        intro k hk
        have hka : ¬ key a = k := by
          intro heq
          exact h (heq ▸ List.mem_dedup.mp hk)
        simp [List.filter_cons, hka]
      rw [h1, hrest, ih]
      simp [Nat.add_comm]

/-! ## JavaScript-style helpers shared by the handler embeddings -/

/-- JS truthiness of an optional string query parameter / body field:
`undefined` and the empty string are falsy. -/
def strTruthy : Option String → Bool
  | none => false
  | some s => !(s == "")

/-- JS `x || null` on an optional string: empty strings collapse to null. -/
def jsOrNull : Option String → Option String
  | none => none
  | some s => if s == "" then none else some s

/-- Model of JS `String.prototype.trim`: drop whitespace from both ends. -/
def jsTrim (s : String) : String :=
  String.mk (((s.data.dropWhile Char.isWhitespace).reverse.dropWhile
    Char.isWhitespace).reverse)

/-! ## Data model: the `events` table -/

/-- One row of the `events` table (the columns the handlers touch). -/
structure Event where
  id : String
  app_id : String
  api_key_id : String
  event_name : String
  user_id : String
  session_id : Option String
  device_type : Option String
  device_model : Option String
  os_name : Option String
  os_version : Option String
  browser_name : Option String
  browser_version : Option String
  ip_address : Option String
  user_agent : Option String
  properties : Option String
  timestamp : Int
deriving DecidableEq, Repr

/-! ## Aggregation query (event summary): store-side computation -/

/-- The rows matched by the summary queries: `event_name = ?`
(`AND app_id = ?` when given) `AND timestamp >= ? AND timestamp <= ?`. -/
def matchingEvents (store : List Event) (eventName : String) (appId : Option String)
    (startTs endTs : Int) : List Event :=
  store.filter (fun e =>
    e.event_name == eventName
      && (match appId with
          | some a => e.app_id == a
          | none => true)
      && decide (startTs ≤ e.timestamp) && decide (e.timestamp ≤ endTs))

/-- Model of `GROUP BY device_type` with per-group `COUNT(*)` (the query's
`total_count` and `device_count` columns are both the group size). -/
def deviceGroups (l : List Event) : List (Option String × Nat) :=
  ((l.map (fun e => e.device_type)).dedup).map
    (fun k => (k, (l.filter (fun e => decide (e.device_type = k))).length))

/-- Model of `row.device_type || 'unknown'` in the breakdown assembly. -/
def deviceLabel : Option String → String
  | none => "unknown"
  | some s => if s == "" then "unknown" else s

/-- The assembled summary result object. -/
structure Summary where
  event_name : String
  app_id : Option String
  range_start : Int
  range_end : Int
  total_count : Nat
  unique_users : Nat
  device_breakdown : List (String × Nat)
deriving DecidableEq, Repr

/-- The summary computed from the store on a cache miss: grouped query,
separate exact `COUNT(DISTINCT user_id)` query, then assembly. -/
def computeSummary (store : List Event) (eventName : String) (appId : Option String)
    (startTs endTs : Int) : Summary :=
  let matching := matchingEvents store eventName appId startTs endTs
  let rows := deviceGroups matching
  { event_name := eventName
    app_id := appId
    range_start := startTs
    range_end := endTs
    total_count := (rows.map (fun r => r.2)).sum
    unique_users := ((matching.map (fun e => e.user_id)).dedup).length
    device_breakdown := rows.map (fun r => (deviceLabel r.1, r.2)) }

/-- C4: in every computed event summary, `unique_users` never exceeds
`total_count`, and `total_count` equals the sum of the
`device_breakdown[].count` values. -/
theorem computeSummary_aggregation_invariants (store : List Event) (eventName : String)
    (appId : Option String) (startTs endTs : Int) :
    (computeSummary store eventName appId startTs endTs).unique_users
        ≤ (computeSummary store eventName appId startTs endTs).total_count
    ∧ (computeSummary store eventName appId startTs endTs).total_count
        = (((computeSummary store eventName appId startTs endTs).device_breakdown).map
            (fun r => r.2)).sum := by
  constructor
  · show ((((matchingEvents store eventName appId startTs endTs).map
        (fun e => e.user_id)).dedup).length) ≤ _
    have h1 : (((matchingEvents store eventName appId startTs endTs).map
          (fun e => e.user_id)).dedup).length
        ≤ ((matchingEvents store eventName appId startTs endTs).map
            (fun e => e.user_id)).length :=
      (List.dedup_sublist _).length_le
    have h2 : (deviceGroups (matchingEvents store eventName appId startTs endTs)).map
          (fun r => r.2)
        = (((matchingEvents store eventName appId startTs endTs).map
            (fun e => e.device_type)).dedup).map
          (fun k => ((matchingEvents store eventName appId startTs endTs).filter
              (fun e => decide (e.device_type = k))).length) := by
      simp [deviceGroups, List.map_map, Function.comp]
    show _ ≤ ((deviceGroups (matchingEvents store eventName appId startTs endTs)).map
        (fun r => r.2)).sum
    rw [h2, sum_group_sizes (fun e : Event => e.device_type)
      (matchingEvents store eventName appId startTs endTs)]
    simpa using h1
  · simp only [computeSummary, List.map_map]
    rfl

/-! ## Aggregation query (event summary): full handler with cache-aside -/

/-- Outcome of the cache read attempt (`redis.get`): a hit with a stored
payload, a miss, or a thrown cache error. -/
inductive CacheReadO where
  | hit (d : Summary)
  | miss
  | fail
deriving DecidableEq, Repr

/-- Outcome of the cache write attempt (`redis.setEx`). -/
inductive CacheWriteO where
  | ok
  | fail
deriving DecidableEq, Repr

/-- Response of the event-summary endpoint. -/
inductive SummaryRes where
  | badRequest (msg : String)
  | ok (data : Summary) (cached : Bool)
deriving DecidableEq, Repr

/-- The query-string parameters of `GET /api/analytics/event-summary`. -/
structure SummaryQuery where
  event : Option String
  startDate : Option String
  endDate : Option String
  app_id : Option String
deriving DecidableEq, Repr

def msPerWeek : Int := 7 * 24 * 60 * 60 * 1000

/-- Model of `endDate ? new Date(endDate) : new Date()`; `parse` stands for JS date
parsing, returning `none` exactly when the result is `NaN`. -/
def resolvedEnd (parse : String → Option Int) (now : Int)
    (endDate : Option String) : Option Int :=
  match endDate with
  | some s => if s == "" then some now else parse s
  | none => some now

/-- Model of `startDate ? new Date(startDate) : new Date(Date.now() - 7*24*60*60*1000)`. -/
def resolvedStart (parse : String → Option Int) (now : Int)
    (startDate : Option String) : Option Int :=
  match startDate with
  | some s => if s == "" then some (now - msPerWeek) else parse s
  | none => some (now - msPerWeek)

/-- The event-summary handler.  `cache` is `none` when the cache client is
unavailable (`getRedis()` returned null) and otherwise carries the outcomes
the cache would produce for the read and the write.  The second component
of the result records the store/cache I/O the handler performed, in order. -/
def eventSummary (parse : String → Option Int) (now : Int) (q : SummaryQuery)
    (cache : Option (CacheReadO × CacheWriteO)) (store : List Event) :
    SummaryRes × List String :=
  if !(strTruthy q.event) then
    (SummaryRes.badRequest "event query parameter is required.", [])
  else
    match resolvedStart parse now q.startDate, resolvedEnd parse now q.endDate with
    | some startTs, some endTs =>
        (match cache with
         | some (CacheReadO.hit d, _) =>
             (SummaryRes.ok d true, ["cache_read"])
         | some (_, _) =>
             (SummaryRes.ok
                (computeSummary store (q.event.getD "") (jsOrNull q.app_id) startTs endTs)
                false,
              ["cache_read", "db_group_query", "db_distinct_query", "cache_write"])
         | none =>
             (SummaryRes.ok
                (computeSummary store (q.event.getD "") (jsOrNull q.app_id) startTs endTs)
                false,
              ["db_group_query", "db_distinct_query"]))
    | _, _ =>
        (SummaryRes.badRequest
          "Invalid date format. Use ISO 8601 format (YYYY-MM-DD or YYYY-MM-DDTHH:mm:ss).",
         [])

/-- C6: a failed cache read is handled exactly like a cache miss — the store
is queried, the request succeeds, the response is the freshly computed
result with `cached = false` — and the cache-write outcome is never
surfaced to the caller. -/
theorem eventSummary_cache_failures_swallowed
    (parse : String → Option Int) (now : Int) (q : SummaryQuery) (store : List Event)
    (r : CacheReadO) (w : CacheWriteO) (startTs endTs : Int)
    (hev : strTruthy q.event = true)
    (hr : r = CacheReadO.miss ∨ r = CacheReadO.fail)
    (hs : resolvedStart parse now q.startDate = some startTs)
    (he : resolvedEnd parse now q.endDate = some endTs) :
    (eventSummary parse now q (some (r, w)) store).1
        = SummaryRes.ok
            (computeSummary store (q.event.getD "") (jsOrNull q.app_id) startTs endTs)
            false
    ∧ (eventSummary parse now q (some (r, w)) store).1
        = (eventSummary parse now q (some (CacheReadO.miss, CacheWriteO.ok)) store).1 := by
  have hmain : (eventSummary parse now q (some (r, w)) store).1
      = SummaryRes.ok
          (computeSummary store (q.event.getD "") (jsOrNull q.app_id) startTs endTs)
          false := by
    rcases hr with hr | hr <;>
      simp [eventSummary, hev, hs, he, hr]
  refine ⟨hmain, ?_⟩
  rw [hmain]
  simp [eventSummary, hev, hs, he]

/-- C6 witness. -/
theorem eventSummary_cache_failures_swallowed_witness :
    (eventSummary (fun _ => none) 0 ⟨some "click", none, none, none⟩
        (some (CacheReadO.fail, CacheWriteO.fail)) []).1
      = SummaryRes.ok (computeSummary [] "click" none (0 - msPerWeek) 0) false :=
  (eventSummary_cache_failures_swallowed (fun _ => none) 0
    ⟨some "click", none, none, none⟩ [] CacheReadO.fail CacheWriteO.fail
    (0 - msPerWeek) 0 (by decide) (Or.inr rfl) rfl rfl).1

/-- C7: an omitted `endDate` resolves to the current time, an omitted
`startDate` resolves to exactly 7 days before the current time, and a
supplied date string that does not parse makes the request fail with a
bad-request response before any store or cache I/O (the I/O trace of the
handler is empty). -/
theorem eventSummary_date_defaults_and_validation
    (parse : String → Option Int) (now : Int) (q : SummaryQuery)
    (cache : Option (CacheReadO × CacheWriteO)) (store : List Event)
    (hev : strTruthy q.event = true)
    (hbad : resolvedStart parse now q.startDate = none
        ∨ resolvedEnd parse now q.endDate = none) :
    resolvedEnd parse now none = some now
    ∧ resolvedStart parse now none = some (now - 7 * 24 * 60 * 60 * 1000)
    ∧ eventSummary parse now q cache store
        = (SummaryRes.badRequest
            "Invalid date format. Use ISO 8601 format (YYYY-MM-DD or YYYY-MM-DDTHH:mm:ss).",
           []) := by
  refine ⟨rfl, rfl, ?_⟩
  rcases hbad with hbad | hbad
  · simp [eventSummary, hev, hbad]
  · cases hstart : resolvedStart parse now q.startDate <;>
      simp [eventSummary, hev, hbad, hstart]

/-- C7 witness. -/
theorem eventSummary_date_defaults_and_validation_witness :
    eventSummary (fun _ => none) 5 ⟨some "click", some "garbage", none, none⟩ none []
      = (SummaryRes.badRequest
          "Invalid date format. Use ISO 8601 format (YYYY-MM-DD or YYYY-MM-DDTHH:mm:ss).",
         []) :=
  (eventSummary_date_defaults_and_validation (fun _ => none) 5
    ⟨some "click", some "garbage", none, none⟩ none []
    (by decide) (Or.inl (by decide))).2.2

/-- C9: when the filters match zero events in the store and the cache
misses, the response is a success carrying `total_count = 0`,
`unique_users = 0` and an empty `device_breakdown` — not a not-found
error. -/
theorem eventSummary_zero_matches_success
    (parse : String → Option Int) (now : Int) (q : SummaryQuery)
    (w : CacheWriteO) (store : List Event) (startTs endTs : Int)
    (hev : strTruthy q.event = true)
    (hs : resolvedStart parse now q.startDate = some startTs)
    (he : resolvedEnd parse now q.endDate = some endTs)
    (hmatch : matchingEvents store (q.event.getD "") (jsOrNull q.app_id) startTs endTs
        = []) :
    (eventSummary parse now q (some (CacheReadO.miss, w)) store).1
      = SummaryRes.ok
          { event_name := q.event.getD ""
            app_id := jsOrNull q.app_id
            range_start := startTs
            range_end := endTs
            total_count := 0
            unique_users := 0
            device_breakdown := [] }
          false := by
  simp [eventSummary, hev, hs, he, computeSummary, hmatch, deviceGroups]

/-- C9 witness. -/
theorem eventSummary_zero_matches_success_witness :
    (eventSummary (fun _ => none) 0 ⟨some "click", none, none, none⟩
        (some (CacheReadO.miss, CacheWriteO.ok)) []).1
      = SummaryRes.ok
          { event_name := "click", app_id := none,
            range_start := 0 - msPerWeek, range_end := 0,
            total_count := 0, unique_users := 0, device_breakdown := [] }
          false :=
  eventSummary_zero_matches_success (fun _ => none) 0
    ⟨some "click", none, none, none⟩ CacheWriteO.ok [] (0 - msPerWeek) 0
    (by decide) rfl rfl rfl

/-! ## User statistics handler -/

/-- Model of `MAX(timestamp)` over a (nonempty) group; the `[]` case is unreachable
because SQL groups are nonempty. -/
def tsMax : List Int → Int
  | [] => 0
  | [t] => t
  | t :: rest => max t (tsMax rest)

/-- Model of `MIN(timestamp)` over a (nonempty) group. -/
def tsMin : List Int → Int
  | [] => 0
  | [t] => t
  | t :: rest => min t (tsMin rest)

/-- One row of the stats query: per-`ip_address` group with its count and
first/last timestamps. -/
structure IpGroup where
  ip : Option String
  total_events : Nat
  first_seen : Int
  last_seen : Int
deriving DecidableEq, Repr

/-- The rows matched by the user-stats queries:
`user_id = ?` (`AND app_id = ?` when given). -/
def userMatches (store : List Event) (uid : String) (appId : Option String) :
    List Event :=
  store.filter (fun e =>
    e.user_id == uid
      && (match appId with
          | some a => e.app_id == a
          | none => true))

/-- Model of `GROUP BY ip_address` with `COUNT(*)`, `MIN(timestamp)`, `MAX(timestamp)`. -/
def ipGroups (l : List Event) : List IpGroup :=
  ((l.map (fun e => e.ip_address)).dedup).map
    (fun k =>
      let g := l.filter (fun e => decide (e.ip_address = k))
      { ip := k
        total_events := g.length
        first_seen := tsMin (g.map (fun e => e.timestamp))
        last_seen := tsMax (g.map (fun e => e.timestamp)) })

/-- Ordering relation of `ORDER BY last_seen DESC` on the grouped rows. -/
def groupRel (g1 g2 : IpGroup) : Prop := g2.last_seen ≤ g1.last_seen

instance : DecidableRel groupRel := fun a b =>
  decidable_of_iff (b.last_seen ≤ a.last_seen) Iff.rfl

instance : IsTotal IpGroup groupRel := ⟨fun a b => le_total b.last_seen a.last_seen⟩

instance : IsTrans IpGroup groupRel :=
  ⟨fun _ _ _ hab hbc => le_trans hbc hab⟩

/-- Ordering relation of `ORDER BY timestamp DESC` on events. -/
def evRel (e1 e2 : Event) : Prop := e2.timestamp ≤ e1.timestamp

instance : DecidableRel evRel := fun a b =>
  decidable_of_iff (b.timestamp ≤ a.timestamp) Iff.rfl

instance : IsTotal Event evRel := ⟨fun a b => le_total b.timestamp a.timestamp⟩

instance : IsTrans Event evRel :=
  ⟨fun _ _ _ hab hbc => le_trans hbc hab⟩

/-- The body of a successful user-stats response. -/
structure UserStatsData where
  user_id : String
  app_id : Option String
  total_events : Nat
  first_seen : Int
  last_seen : Int
  ip_address : Option String
  recent_events : List (String × Int × Option String)
deriving DecidableEq, Repr

/-- Response of the user-stats handler. -/
inductive UserStatsRes where
  | badRequest (msg : String)
  | notFound
  | ok (data : UserStatsData)
deriving DecidableEq, Repr

/-- The user-stats handler: grouped stats query with
`ORDER BY last_seen DESC LIMIT 1`, then the 10 most recent events. -/
def userStats (store : List Event) (user_id : Option String)
    (app_id : Option String) : UserStatsRes :=
  if !(strTruthy user_id) then
    UserStatsRes.badRequest "user_id query parameter is required."
  else
    let uid := user_id.getD ""
    let appF := jsOrNull app_id
    let matching := userMatches store uid appF
    match (List.insertionSort groupRel (ipGroups matching)).head? with
    | none => UserStatsRes.notFound
    | some g =>
        UserStatsRes.ok
          { user_id := uid
            app_id := appF
            total_events := g.total_events
            first_seen := g.first_seen
            last_seen := g.last_seen
            ip_address := g.ip
            recent_events :=
              ((List.insertionSort evRel matching).take 10).map
                (fun e => (e.event_name, e.timestamp, e.properties)) }

/-- The analytics routes actually registered in the routes file; the
`user-stats` registration is commented out in the source. -/
def registeredAnalyticsRoutes : List (String × String) :=
  [("POST", "/collect"), ("GET", "/event-summary")]

/-- A two-event store for one user appearing under two IP addresses. -/
def c1Event1 : Event :=
  { id := "e1", app_id := "a1", api_key_id := "k1", event_name := "login",
    user_id := "u1", session_id := none, device_type := none,
    device_model := none, os_name := none, os_version := none,
    browser_name := none, browser_version := none,
    ip_address := some "10.0.0.1", user_agent := none, properties := none,
    timestamp := 1 }

def c1Event2 : Event :=
  { c1Event1 with id := "e2", ip_address := some "10.0.0.2", timestamp := 2 }

def c1Store : List Event := [c1Event1, c1Event2]

/-- C1: the claim fails on the code.  The `user-stats` route registration is
commented out (so the live HTTP surface has no such route), and the handler
itself groups the stats query by `ip_address` taking only the top group, so
on a store where user `u1` has N = 2 matching events under two IPs it
reports `total_events = 1`, not 2. -/
theorem userStats_total_events_mismatch :
    ("GET", "/user-stats") ∉ registeredAnalyticsRoutes
    ∧ (userMatches c1Store "u1" none).length = 2
    ∧ userStats c1Store (some "u1") none
        = UserStatsRes.ok
            { user_id := "u1", app_id := none, total_events := 1,
              first_seen := 2, last_seen := 2, ip_address := some "10.0.0.2",
              recent_events := [("login", 2, none), ("login", 1, none)] } := by
  refine ⟨by decide, by decide, ?_⟩
  decide

/-! ## Event ingestion handler -/

/-- The JSON body of `POST /api/analytics/collect`.  The `timestamp` field
stands for a client-supplied event timestamp: the handler's destructuring
does not read it, so the embedding carries it only to show it is ignored. -/
structure CollectBody where
  event_name : Option String
  user_id : Option String
  session_id : Option String
  device_type : Option String
  device_model : Option String
  os_name : Option String
  os_version : Option String
  browser_name : Option String
  browser_version : Option String
  properties : Option String
  timestamp : Option Int
deriving DecidableEq, Repr

/-- The authenticated context `req.app` attached by the API-key middleware. -/
structure AuthCtx where
  id : String
  apiKeyId : String
  name : String
deriving DecidableEq, Repr

/-- Response of the collect handler. -/
inductive CollectRes where
  | badRequest (msg : String)
  | created (inserted : Event)
deriving DecidableEq, Repr

/-- Model of `!x || typeof x !== 'string' || x.trim().length === 0`. -/
def validStr : Option String → Bool
  | none => false
  | some s => !(s == "") && !(jsTrim s == "")

/-- The collect handler: validates `event_name` and `user_id`, then inserts
one event row whose `timestamp` column is filled with `NOW()` (`now`). -/
def collectEvent (body : CollectBody) (ctx : AuthCtx) (eventId : String)
    (ip : Option String) (ua : Option String) (now : Int) : CollectRes :=
  if !(validStr body.event_name) then
    CollectRes.badRequest "event_name is required and must be a non-empty string."
  else if !(validStr body.user_id) then
    CollectRes.badRequest "user_id is required and must be a non-empty string."
  else
    CollectRes.created
      { id := eventId
        app_id := ctx.id
        api_key_id := ctx.apiKeyId
        event_name := jsTrim (body.event_name.getD "")
        user_id := jsTrim (body.user_id.getD "")
        session_id := jsOrNull body.session_id
        device_type := jsOrNull body.device_type
        device_model := jsOrNull body.device_model
        os_name := jsOrNull body.os_name
        os_version := jsOrNull body.os_version
        browser_name := jsOrNull body.browser_name
        browser_version := jsOrNull body.browser_version
        ip_address := jsOrNull ip
        user_agent := jsOrNull ua
        properties := body.properties
        timestamp := now }

/-- A collect body that supplies a client event timestamp of 5. -/
def c3Body : CollectBody :=
  { event_name := some "login", user_id := some "u1", session_id := none,
    device_type := none, device_model := none, os_name := none,
    os_version := none, browser_name := none, browser_version := none,
    properties := none, timestamp := some 5 }

def c3Ctx : AuthCtx := { id := "a1", apiKeyId := "k1", name := "app" }

/-- C3 counterexample: with a body supplying event timestamp 5 and
insertion time 100, the stored row carries timestamp 100 — the client
value is ignored, not persisted. -/
theorem collectEvent_client_timestamp_cex :
    c3Body.timestamp = some 5
    ∧ collectEvent c3Body c3Ctx "e9" none none 100
        = CollectRes.created
            { id := "e9", app_id := "a1", api_key_id := "k1",
              event_name := "login", user_id := "u1", session_id := none,
              device_type := none, device_model := none, os_name := none,
              os_version := none, browser_name := none, browser_version := none,
              ip_address := none, user_agent := none, properties := none,
              timestamp := 100 }
    ∧ (100 : Int) ≠ 5 := by
  refine ⟨rfl, ?_, by decide⟩
  decide

/-- C3 (amended): the stored event timestamp is never client-controllable —
whenever the collect handler inserts a row, that row's timestamp equals the
ingestion (insertion) time, whatever the body supplied. -/
theorem collectEvent_timestamp_is_insertion_time
    (body : CollectBody) (ctx : AuthCtx) (eventId : String)
    (ip ua : Option String) (now : Int) (e : Event)
    (h : collectEvent body ctx eventId ip ua now = CollectRes.created e) :
    e.timestamp = now := by
  unfold collectEvent at h
  by_cases h1 : validStr body.event_name
  · by_cases h2 : validStr body.user_id
    · simp [h1, h2] at h
      rw [← h]
    · simp [h1, h2] at h
  · simp [h1] at h

/-- C3 witness. -/
theorem collectEvent_timestamp_is_insertion_time_witness :
    ∃ e : Event,
      collectEvent c3Body c3Ctx "e9" none none 100 = CollectRes.created e
        ∧ e.timestamp = 100 :=
  ⟨{ id := "e9", app_id := "a1", api_key_id := "k1",
     event_name := "login", user_id := "u1", session_id := none,
     device_type := none, device_model := none, os_name := none,
     os_version := none, browser_name := none, browser_version := none,
     ip_address := none, user_agent := none, properties := none,
     timestamp := 100 },
   by decide,
   collectEvent_timestamp_is_insertion_time c3Body c3Ctx "e9" none none 100 _
     (by decide)⟩

/-! ## Short link creation -/

/-- The URL-safe base64 alphabet used by `Buffer.toString` with the
`base64url` encoding. -/
def base64urlAlphabet : List Char :=
  "ABCDEFGHIJKLMNOPQRSTUVWXYZabcdefghijklmnopqrstuvwxyz0123456789-_".data

def b64Char (n : Nat) : Char := base64urlAlphabet.getD n 'A'

/-- Unpadded base64url encoding of a byte list, as produced by Node's
`Buffer.prototype.toString('base64url')`: each 3-byte block yields 4
characters, a trailing byte yields 2, two trailing bytes yield 3. -/
def base64urlEncode : List Nat → List Char
  | [] => []
  | [b1] => [b64Char (b1 / 4), b64Char (b1 % 4 * 16)]
  | [b1, b2] =>
      [b64Char (b1 / 4), b64Char (b1 % 4 * 16 + b2 / 16), b64Char (b2 % 16 * 4)]
  | b1 :: b2 :: b3 :: rest =>
      b64Char (b1 / 4) :: b64Char (b1 % 4 * 16 + b2 / 16)
        :: b64Char (b2 % 16 * 4 + b3 / 64) :: b64Char (b3 % 64)
        :: base64urlEncode rest

/-- Model of `crypto.randomBytes(4).toString('base64url').substring(0, 8)`. -/
def generatedSlug (randomBytes : List Nat) : String :=
  String.mk ((base64urlEncode randomBytes).take 8)

/-- One row of the `short_urls` table. -/
structure ShortUrl where
  id : String
  app_id : String
  slug : String
  original_url : String
deriving DecidableEq, Repr

/-- Response of the short-url creation handler. -/
inductive ShortUrlRes where
  | badRequest (msg : String)
  | conflict (msg : String)
  | created (slug : String) (original_url : String)
deriving DecidableEq, Repr

/-- The short-url creation handler.  `urlValid` stands for whether
`new URL(url)` succeeds; `randomBytes` are the 4 secure random bytes drawn
when no slug is supplied. -/
def createShortUrl (url : Option String) (slug : Option String) (urlValid : Bool)
    (randomBytes : List Nat) (existing : List ShortUrl) (newId : String)
    (appId : String) : ShortUrlRes × List ShortUrl :=
  if !(validStr url) then
    (ShortUrlRes.badRequest "url is required and must be a valid URL string.", existing)
  else if !urlValid then
    (ShortUrlRes.badRequest "Invalid URL format.", existing)
  else
    let finalSlug :=
      match slug with
      | some s => if s == "" then generatedSlug randomBytes else s
      | none => generatedSlug randomBytes
    if (existing.filter (fun u => u.slug == finalSlug)).length > 0 then
      (ShortUrlRes.conflict "Slug already exists. Please choose a different slug.",
       existing)
    else
      (ShortUrlRes.created finalSlug (jsTrim (url.getD "")),
       existing ++ [{ id := newId, app_id := appId, slug := finalSlug,
                      original_url := jsTrim (url.getD "") }])

/-- C2: the claim fails on the code.  For every 4-byte random draw the
generated slug has exactly 6 characters, not 8 (base64url of 4 bytes is 6
characters and `substring(0, 8)` cannot lengthen it), and a creation
request with a valid url and no slug returns that 6-character slug. -/
theorem createShortUrl_generated_slug_length (b : List Nat) (hb : b.length = 4) :
    (generatedSlug b).length = 6
    ∧ (6 : Nat) ≠ 8
    ∧ (createShortUrl (some "https://example.com") none true b [] "s1" "a1").1
        = ShortUrlRes.created (generatedSlug b) "https://example.com" := by
  match b, hb with
  | [x1, x2, x3, x4], _ =>
    refine ⟨rfl, by decide, ?_⟩
    have hurl : validStr (some "https://example.com") = true := by decide
    have htrim : jsTrim "https://example.com" = "https://example.com" := by decide
    simp [createShortUrl, hurl, htrim]

/-- C2 witness. -/
theorem createShortUrl_generated_slug_length_witness :
    (generatedSlug [1, 2, 3, 4]).length = 6 :=
  (createShortUrl_generated_slug_length [1, 2, 3, 4] rfl).1

/-! ## Credential (API key) data model and authentication -/

/-- One row of the `api_keys` table. -/
structure ApiKeyRow where
  id : String
  app_id : String
  api_key : String
  is_revoked : Bool
  expires_at : Option Int
  created_at : Int
  revoked_at : Option Int
deriving DecidableEq, Repr

/-- One row of the `apps` table (the columns these handlers touch). -/
structure AppRow where
  id : String
  name : String
deriving DecidableEq, Repr

/-- The authenticated context returned by the API-key middleware. -/
structure AuthOk where
  app_id : String
  apiKeyId : String
  app_name : String
deriving DecidableEq, Repr

/-- Model of `expires_at IS NULL OR expires_at > NOW()`. -/
def expiryOk (now : Int) : Option Int → Bool
  | none => true
  | some t => decide (now < t)

/-- The API-key authentication middleware: the credential joined with its
owning application, filtered to not-revoked and not-expired; `none` models
the 401 responses. -/
def apiKeyAuth (apps : List AppRow) (keys : List ApiKeyRow)
    (presented : Option String) (now : Int) : Option AuthOk :=
  match presented with
  | none => none
  | some k =>
      (keys.filterMap (fun ak =>
        if ak.api_key == k && !ak.is_revoked && expiryOk now ak.expires_at then
          (apps.find? (fun a => a.id == ak.app_id)).map
            (fun a => { app_id := ak.app_id, apiKeyId := ak.id, app_name := a.name })
        else none)).head?

/-! ## Credential lifecycle: regenerate -/

/-- The `UPDATE ... SET is_revoked = TRUE, revoked_at = NOW()
WHERE app_id = ? AND is_revoked = FALSE` step, applied to one row. -/
def regenRevoke (appId : String) (now : Int) (r : ApiKeyRow) : ApiKeyRow :=
  if r.app_id == appId && !r.is_revoked then
    { r with is_revoked := true, revoked_at := some now }
  else r

/-- The freshly inserted credential row; `is_revoked`, `expires_at` and
`revoked_at` take their schema defaults. -/
def newKeyRow (appId newId newKey : String) (now : Int) : ApiKeyRow :=
  { id := newId, app_id := appId, api_key := newKey,
    is_revoked := false, expires_at := none, created_at := now,
    revoked_at := none }

/-- Response of the regenerate handler. -/
inductive RegenRes where
  | badRequest (msg : String)
  | ok (apiKey : String)
deriving DecidableEq, Repr

/-- The regenerate handler: inside one transaction, revoke every active
credential of the application, then insert one new active credential;
respond with only the new raw secret. -/
def regenerateKey (db : List ApiKeyRow) (app_id : Option String)
    (newId newKey : String) (now : Int) : RegenRes × List ApiKeyRow :=
  if !(strTruthy app_id) then
    (RegenRes.badRequest "app_id is required.", db)
  else
    let appId := app_id.getD ""
    (RegenRes.ok newKey,
     db.map (regenRevoke appId now) ++ [newKeyRow appId newId newKey now])

/-- C5: after a committed regenerate call, the response carries only the new
raw secret, every previously active credential of the application ends up
revoked (with its revocation time stamped), the application's only active
credential is the newly inserted one, the new secret differs from every
previously issued one, and it authenticates successfully. -/
theorem regenerateKey_rotates_credentials
    (db : List ApiKeyRow) (apps : List AppRow) (appId newId newKey : String)
    (now : Int) (app : AppRow)
    (happ : ¬ appId = "")
    (hfresh : ∀ r ∈ db, ¬ r.api_key = newKey)
    (hjoin : apps.find? (fun a => a.id == appId) = some app) :
    (regenerateKey db (some appId) newId newKey now).1 = RegenRes.ok newKey
    ∧ (∀ r ∈ db, r.app_id = appId → r.is_revoked = false →
        ∃ rr ∈ (regenerateKey db (some appId) newId newKey now).2,
          rr.id = r.id ∧ rr.is_revoked = true ∧ rr.revoked_at = some now)
    ∧ ((regenerateKey db (some appId) newId newKey now).2).filter
        (fun r => r.app_id == appId && !r.is_revoked)
        = [newKeyRow appId newId newKey now]
    ∧ (∀ r ∈ db, ¬ r.api_key = newKey)
    ∧ apiKeyAuth apps ((regenerateKey db (some appId) newId newKey now).2)
        (some newKey) now
        = some { app_id := appId, apiKeyId := newId, app_name := app.name } := by
  have htr : strTruthy (some appId) = true := by
    simp [strTruthy, happ]
  have hout : regenerateKey db (some appId) newId newKey now
      = (RegenRes.ok newKey,
         db.map (regenRevoke appId now) ++ [newKeyRow appId newId newKey now]) := by
    simp [regenerateKey, htr]
  refine ⟨by rw [hout], ?_, ?_, hfresh, ?_⟩
  · intro r hr hrapp hract
    refine ⟨regenRevoke appId now r, ?_, ?_⟩
    · rw [hout]
      exact List.mem_append_left _ (List.mem_map_of_mem _ hr)
    · have hcond : (r.app_id == appId && !r.is_revoked) = true := by
        simp [hrapp, hract]
      simp [regenRevoke, hcond]
  · rw [hout, List.filter_append]
    have hleft : (db.map (regenRevoke appId now)).filter
        (fun r => r.app_id == appId && !r.is_revoked) = [] := by
      rw [List.filter_eq_nil_iff]
      intro rr hrr
      rcases List.mem_map.mp hrr with ⟨r, _, hrrow⟩
      subst hrrow
      unfold regenRevoke
      by_cases hc : (r.app_id == appId && !r.is_revoked) = true
      · simp [hc]
      · simp only [hc]
        simp only [Bool.not_eq_true] at hc
        simp [hc]
    have hright : [newKeyRow appId newId newKey now].filter
        (fun r => r.app_id == appId && !r.is_revoked)
        = [newKeyRow appId newId newKey now] := by
      simp [newKeyRow]
    rw [hleft, hright, List.nil_append]
  · rw [hout]
    simp only [apiKeyAuth, List.filterMap_append]
    have hleft : (db.map (regenRevoke appId now)).filterMap (fun ak =>
        if ak.api_key == newKey && !ak.is_revoked && expiryOk now ak.expires_at then
          (apps.find? (fun a => a.id == ak.app_id)).map
            (fun a => ({ app_id := ak.app_id, apiKeyId := ak.id,
                         app_name := a.name } : AuthOk))
        else none) = [] := by
      rw [List.filterMap_eq_nil_iff]
      intro rr hrr
      rcases List.mem_map.mp hrr with ⟨r, hrdb, hrrow⟩
      subst hrrow
      have hkey : (regenRevoke appId now r).api_key = r.api_key := by
        unfold regenRevoke
        by_cases hc : (r.app_id == appId && !r.is_revoked) = true <;> simp [hc]
      have hne : ((regenRevoke appId now r).api_key == newKey) = false := by
        rw [hkey]
        exact beq_eq_false_iff_ne.mpr (hfresh r hrdb)
      simp [hne]
    rw [hleft, List.nil_append]
    simp [newKeyRow, expiryOk, hjoin]

/-- A concrete previously issued, still-active credential row. -/
def c5OldRow : ApiKeyRow :=
  { id := "k0", app_id := "a1", api_key := "oldsecret",
    is_revoked := false, expires_at := none, created_at := 0,
    revoked_at := none }

def c5App : AppRow := { id := "a1", name := "App" }

/-- C5 witness. -/
theorem regenerateKey_rotates_credentials_witness :
    ((regenerateKey [c5OldRow] (some "a1") "k1" "newsecret" 9).2).filter
      (fun r => r.app_id == "a1" && !r.is_revoked)
      = [newKeyRow "a1" "k1" "newsecret" 9] :=
  (regenerateKey_rotates_credentials [c5OldRow] [c5App] "a1" "k1" "newsecret" 9
    c5App (by decide) (by decide) (by decide)).2.2.1

/-! ## Credential lifecycle: list (masked) -/

/-- JS `s.slice(-8)`: the last 8 characters (the whole string when it is
shorter than 8). -/
def sliceLast8 (s : String) : String :=
  String.mk (s.data.drop (s.data.length - 8))

/-- One entry of the credential-list response. -/
structure MaskedKey where
  id : String
  api_key : String
  is_revoked : Bool
  expires_at : Option Int
  created_at : Int
  revoked_at : Option Int
  app_name : String
deriving DecidableEq, Repr

/-- The per-row masking: a fixed placeholder for revoked credentials and
a 4-star prefix plus the last-8-character suffix otherwise. -/
def maskKey (appName : String) (r : ApiKeyRow) : MaskedKey :=
  { id := r.id
    api_key := if r.is_revoked then "REVOKED" else "****" ++ sliceLast8 r.api_key
    is_revoked := r.is_revoked
    expires_at := r.expires_at
    created_at := r.created_at
    revoked_at := r.revoked_at
    app_name := appName }

/-- Ordering relation of `ORDER BY created_at DESC`. -/
def createdDescRel (r1 r2 : ApiKeyRow) : Prop := r2.created_at ≤ r1.created_at

instance : DecidableRel createdDescRel := fun a b =>
  decidable_of_iff (b.created_at ≤ a.created_at) Iff.rfl

instance : IsTotal ApiKeyRow createdDescRel :=
  ⟨fun a b => le_total b.created_at a.created_at⟩

instance : IsTrans ApiKeyRow createdDescRel :=
  ⟨fun _ _ _ hab hbc => le_trans hbc hab⟩

/-- The rows of the credential-list query:
`WHERE app_id = ? ORDER BY created_at DESC`. -/
def apiKeysFor (db : List ApiKeyRow) (appId : String) : List ApiKeyRow :=
  List.insertionSort createdDescRel (db.filter (fun r => r.app_id == appId))

/-- Response of the credential-list handler. -/
inductive ListKeysRes where
  | badRequest (msg : String)
  | ok (keys : List MaskedKey)
deriving DecidableEq, Repr

/-- The credential-list handler: the app's rows joined with the app name,
newest first, each masked. -/
def getApiKey (apps : List AppRow) (db : List ApiKeyRow)
    (app_id : Option String) : ListKeysRes :=
  if !(strTruthy app_id) then
    ListKeysRes.badRequest "app_id query parameter is required."
  else
    let appId := app_id.getD ""
    match apps.find? (fun a => a.id == appId) with
    | none => ListKeysRes.ok []
    | some a => ListKeysRes.ok ((apiKeysFor db appId).map (maskKey a.name))

/-- C8: the credential list contains exactly the application's rows (masked),
ordered newest-first by creation time; a revoked credential shows the fixed
placeholder, an active one shows only a fixed-length suffix of its secret,
and (secrets being longer than the 12-character masked field) the raw
secret appears nowhere in any listed `api_key` field. -/
theorem getApiKey_masked_newest_first
    (apps : List AppRow) (db : List ApiKeyRow) (appId : String) (app : AppRow)
    (happ : ¬ appId = "")
    (hfind : apps.find? (fun a => a.id == appId) = some app)
    (hlen : ∀ r ∈ db, 12 < r.api_key.length) :
    getApiKey apps db (some appId)
        = ListKeysRes.ok ((apiKeysFor db appId).map (maskKey app.name))
    ∧ List.Perm (apiKeysFor db appId) (db.filter (fun r => r.app_id == appId))
    ∧ List.Sorted createdDescRel (apiKeysFor db appId)
    ∧ (∀ r ∈ apiKeysFor db appId, r.is_revoked = true →
        (maskKey app.name r).api_key = "REVOKED")
    ∧ (∀ r ∈ apiKeysFor db appId, r.is_revoked = false →
        (maskKey app.name r).api_key = "****" ++ sliceLast8 r.api_key)
    ∧ (∀ r ∈ apiKeysFor db appId, ∀ i : Nat,
        ¬ (((maskKey app.name r).api_key.data.drop i).take r.api_key.data.length
            = r.api_key.data)) := by
  have htr : strTruthy (some appId) = true := by
    simp [strTruthy, happ]
  refine ⟨?_, ?_, ?_, ?_, ?_, ?_⟩
  · simp [getApiKey, htr, hfind]
  · exact List.perm_insertionSort createdDescRel _
  · exact List.sorted_insertionSort createdDescRel _
  · intro r _ hrev
    simp [maskKey, hrev]
  · intro r _ hrev
    simp [maskKey, hrev]
  · intro r hr i heq
    have hrdb : r ∈ db :=
      List.mem_of_mem_filter
        ((List.perm_insertionSort createdDescRel _).mem_iff.mp hr)
    have hklen : 12 < r.api_key.data.length := hlen r hrdb
    have hmask : ((maskKey app.name r).api_key.data).length ≤ 12 := by
      unfold maskKey
      by_cases hrev : r.is_revoked <;> simp [hrev, String.data_append, sliceLast8]
      omega
    have htake : (((maskKey app.name r).api_key.data.drop i).take
        r.api_key.data.length).length < r.api_key.data.length := by
      rw [List.length_take, List.length_drop]
      omega
    rw [heq] at htake
    omega

/-- A concrete active credential row with a 16-character secret. -/
def c8Row : ApiKeyRow :=
  { id := "k1", app_id := "a1", api_key := "0123456789abcdef",
    is_revoked := false, expires_at := none, created_at := 3,
    revoked_at := none }

/-- C8 witness. -/
theorem getApiKey_masked_newest_first_witness :
    getApiKey [c5App] [c8Row] (some "a1")
      = ListKeysRes.ok ((apiKeysFor [c8Row] "a1").map (maskKey "App")) :=
  (getApiKey_masked_newest_first [c5App] [c8Row] "a1" c5App
    (by decide) (by decide)
    (by intro r hr; simp only [List.mem_singleton] at hr; subst hr; decide)).1

/-! ## Credential lifecycle: revoke -/

/-- Response of the revoke handler. -/
inductive RevokeRes where
  | badRequest (msg : String)
  | notFound
  | ok
deriving DecidableEq, Repr

/-- The revoke handler: `UPDATE api_keys SET is_revoked = TRUE,
revoked_at = NOW() WHERE id = ?`, then 404 when zero rows matched. -/
def revokeKey (db : List ApiKeyRow) (api_key_id : Option String) (now : Int) :
    RevokeRes × List ApiKeyRow :=
  if !(strTruthy api_key_id) then
    (RevokeRes.badRequest "api_key_id is required.", db)
  else
    let kid := api_key_id.getD ""
    let updated := db.map (fun r =>
      if r.id == kid then { r with is_revoked := true, revoked_at := some now }
      else r)
    if (db.filter (fun r => r.id == kid)).length == 0 then
      (RevokeRes.notFound, updated)
    else
      (RevokeRes.ok, updated)

/-- C10: the revoke call answers not-found exactly when no credential row
has the given id; and on a row that exists but is already revoked it still
succeeds, leaves the row revoked, and re-stamps `revoked_at` with the
current time, because the update predicate matches on the id alone. -/
theorem revokeKey_matches_on_id_alone
    (db : List ApiKeyRow) (kid : String) (now : Int)
    (hk : ¬ kid = "") :
    ((revokeKey db (some kid) now).1 = RevokeRes.notFound ↔ ∀ r ∈ db, ¬ r.id = kid)
    ∧ (∀ r ∈ db, r.id = kid → r.is_revoked = true →
        (revokeKey db (some kid) now).1 = RevokeRes.ok
        ∧ ∃ rr ∈ (revokeKey db (some kid) now).2,
            rr.id = kid ∧ rr.is_revoked = true ∧ rr.revoked_at = some now) := by
  have htr : strTruthy (some kid) = true := by
    simp [strTruthy, hk]
  constructor
  · constructor
    · intro h
      by_cases hempty : (db.filter (fun r => r.id == kid)).length = 0
      · intro r hr hid
        have : r ∈ db.filter (fun r => r.id == kid) :=
          List.mem_filter.mpr ⟨hr, by simp [hid]⟩
        rw [List.length_eq_zero] at hempty
        rw [hempty] at this
        cases this
      · exfalso
        have : (revokeKey db (some kid) now).1 = RevokeRes.ok := by
          simp [revokeKey, htr, hempty]
        rw [this] at h
        cases h
    · intro h
      have hempty : db.filter (fun r => r.id == kid) = [] := by
        rw [List.filter_eq_nil_iff]
        intro r hr
        simp [h r hr]
      simp [revokeKey, htr, hempty]
  · intro r hr hid hrev
    have hmem : r ∈ db.filter (fun r => r.id == kid) :=
      List.mem_filter.mpr ⟨hr, by simp [hid]⟩
    have hnonempty : ¬ (db.filter (fun r => r.id == kid)).length = 0 := by
      intro h0
      rw [List.length_eq_zero] at h0
      rw [h0] at hmem
      cases hmem
    constructor
    · simp [revokeKey, htr, hnonempty]
    · refine ⟨{ r with is_revoked := true, revoked_at := some now }, ?_, hid, rfl, rfl⟩
      have : (revokeKey db (some kid) now).2
          = db.map (fun r =>
              if r.id == kid then { r with is_revoked := true, revoked_at := some now }
              else r) := by
        by_cases hempty : (db.filter (fun r => r.id == kid)).length = 0 <;>
          simp [revokeKey, htr, hempty]
      rw [this]
      have hcond : (r.id == kid) = true := by simp [hid]
      have := List.mem_map_of_mem (fun r : ApiKeyRow =>
        if r.id == kid then { r with is_revoked := true, revoked_at := some now }
        else r) hr
      simpa [hcond] using this

/-- C10 witness: revoking an already-revoked row succeeds and re-stamps. -/
theorem revokeKey_matches_on_id_alone_witness :
    (revokeKey [{ c8Row with is_revoked := true, revoked_at := some 1 }]
        (some "k1") 7).1 = RevokeRes.ok :=
  ((revokeKey_matches_on_id_alone
      [{ c8Row with is_revoked := true, revoked_at := some 1 }] "k1" 7
      (by decide)).2
    { c8Row with is_revoked := true, revoked_at := some 1 }
    (List.mem_singleton.mpr rfl) rfl rfl).1

end Analytics
